import Mathlib

/-!
Verification of the waylrc synchronization/scheduling core against its
natural-language specification.

The Rust sources are shallowly embedded:
* Durations and time tags (`std::time::Duration`, `TimeTag`) are modelled as
  rationals counted in microseconds; `f64` arithmetic is modelled exactly over
  the rationals.
* `BTreeMap<TimeTag, String>` is modelled as a strictly-sorted association
  list; `BTreeMap::insert` is the order-preserving, overwriting insertion.
* Fallible or panicking code returns `Option`/`Except` (with `none` / the
  error modelling the panic or the propagated failure).
* `Instant` is a point on a rational time line; `Instant::elapsed` is the
  (non-negative, saturating) difference to a given `now`.
-/

namespace Waylrc

/-- A time offset from the start of the song (`TimeTag` in `src/lrc.rs`),
in microseconds. -/
abbrev TimeTag := ℚ

/-- One version of a lyrics document: a `BTreeMap<TimeTag, String>` modelled
as an association list kept strictly sorted by key. -/
abbrev Version := List (TimeTag × String)

/-- A parsed lyrics document (`Lrc` in `src/lrc.rs`): a list of versions. -/
abbrev Doc := List Version

/-- `BTreeMap::insert` on a sorted association list: keeps the list sorted
and overwrites an existing binding for the same key. -/
def insertVersion : Version → TimeTag → String → Version
  | [], t, s => [(t, s)]
  | (k, v) :: rest, t, s =>
      if t < k then (t, s) :: (k, v) :: rest
      else if t = k then (t, s) :: rest
      else (k, v) :: insertVersion rest t s

/-- `BTreeMap::last_entry().get_mut().push_str(text)`: append `text`
(directly, with no separator) to the value of the greatest key.  On a sorted
association list the greatest key is the last element. -/
def appendLast : Version → String → Version
  | [], _ => []
  | [(k, v)], s => [(k, v ++ s)]
  | kv :: rest, s => kv :: appendLast rest s

/-- One iteration of the line loop of `Lrc::from_reader`
(`src/lrc.rs:144-171`).  The accumulator is the pair of the already finished
versions (in order) and the version currently being filled (`lrc.last_mut()`).
A line is its list of parsed time tags together with its remaining text. -/
def lrcStep : List Version × Version → List TimeTag × String → List Version × Version
  | (done, cur), ([], text) =>
      match cur.getLast? with
      | some _ => (done, appendLast cur text)
      | none => (done, insertVersion cur 0 text)
  | (done, cur), ([t], text) =>
      match cur.getLast? with
      | some (k, _) =>
          if k > t then (done ++ [cur], [(t, text)])
          else (done, insertVersion cur t text)
      | none => (done, insertVersion cur t text)
  | (done, cur), (ts, text) =>
      (done, ts.foldl (fun c t => insertVersion c t text) cur)

/-- The whole fold of `Lrc::from_reader` (`src/lrc.rs:143-173`), starting from
the single empty version `vec![BTreeMap::new()]`. -/
def lrcFromLines (lines : List (List TimeTag × String)) : Doc :=
  let acc := lines.foldl lrcStep ([], [])
  acc.1 ++ [acc.2]

/-- The per-version part of `Lrc::get` (`src/lrc.rs:226-238`):
`lines.range(time..)` on a sorted map yields the entries with key `≥ time` in
ascending order; the code takes the text of the first such entry and the key
of the following one. -/
def versionAt : Version → TimeTag → Option (String × Option TimeTag)
  | [], _ => none
  | (k, s) :: rest, t =>
      if t ≤ k then some (s, rest.head?.map Prod.fst)
      else versionAt rest t

/-- One iteration of the version loop of `Lrc::get`: extend the collected
texts and keep the least following key seen so far (`next_time` is replaced
when absent or strictly larger). -/
def lrcGetStep (t : TimeTag) (acc : List String × Option TimeTag) (v : Version) :
    List String × Option TimeTag :=
  match versionAt v t with
  | none => acc
  | some (s, n) =>
      let next :=
        match n, acc.2 with
        | some nt, some m => if nt < m then some nt else some m
        | some nt, none => some nt
        | none, m => m
      (acc.1 ++ [s], next)

/-- `Lrc::get` (`src/lrc.rs:222-241`): fold over the versions, collecting the
per-version texts and the minimum of the per-version following keys. -/
def lrcGet (doc : Doc) (t : TimeTag) : List String × Option TimeTag :=
  doc.foldl (lrcGetStep t) ([], none)

/-- Keys of a version. -/
def versionKeys (v : Version) : List TimeTag := v.map Prod.fst

/-- A version is strictly sorted by key (invariant of `BTreeMap` iteration). -/
def versionSorted (v : Version) : Prop :=
  (versionKeys v).Pairwise (· < ·)

/-- Every version of the document is sorted. -/
def docSorted (doc : Doc) : Prop := ∀ v ∈ doc, versionSorted v

/-- Specification-side reading of the query contract, with the direction the
code actually implements: per version, the text at the smallest key `≥ t`,
and the key after it; the next boundary is the least such following key
across versions. -/
def versionAtSpec (v : Version) (t : TimeTag) : Option (String × Option TimeTag) :=
  match v.filter (fun p => t ≤ p.1) with
  | [] => none
  | (_, s) :: rest => some (s, rest.head?.map Prod.fst)

/-- The spec-side version step, mirroring `lrcGetStep` over
`versionAtSpec`. -/
def lrcGetSpecStep (t : TimeTag) (acc : List String × Option TimeTag)
    (v : Version) : List String × Option TimeTag :=
  match versionAtSpec v t with
  | none => acc
  | some (s, n) =>
      let next :=
        match n, acc.2 with
        | some nt, some m => if nt < m then some nt else some m
        | some nt, none => some nt
        | none, m => m
      (acc.1 ++ [s], next)

/-- The whole spec-side query: texts across versions and least next key. -/
def lrcGetSpec (doc : Doc) (t : TimeTag) : List String × Option TimeTag :=
  doc.foldl (lrcGetSpecStep t) ([], none)

/-- The worked three-line document of the spec (lines at 0s, 6.47s and
13.34s), as parsed by the embedded parser; texts abbreviated. -/
def exampleDoc : Doc := [[(0, "A"), (6470000, "B"), (13340000, "C")]]

/-! ### Playback position model (`src/player.rs`) -/

/-- `PlaybackStatus` (`src/player.rs:35-39`). -/
inductive PlaybackStatus
  | Playing
  | Paused
  | Stopped
deriving DecidableEq

/-- The value stored under the well-known `mpris:length` metadata key;
`src/player.rs:363-371` accepts an `I64` or a `U64` number of microseconds. -/
inductive MetaLength
  | I64 (n : ℤ)
  | U64 (n : ℕ)
deriving DecidableEq

/-- The projection of the player metadata map used by the core: the declared
track length and the four track-identity fields compared by
`handle_player_update`. -/
structure Metadata where
  length : Option MetaLength
  url : Option String
  title : Option String
  artist : Option String
  trackid : Option String
deriving DecidableEq

/-- Track length extraction (`src/player.rs:363-371`): an `I64` value is cast
`as u64` (two's-complement wrap) and read as microseconds. -/
def Metadata.trackLengthMicros (m : Metadata) : Option ℚ :=
  match m.length with
  | some (.I64 n) => some (((n % ((2 : ℤ) ^ 64)).toNat : ℚ))
  | some (.U64 n) => some (n : ℚ)
  | none => none

/-- `PlayerInformation` (`src/player.rs:54-60`).  `position` is the raw i64
microsecond position; `position_last_refresh` is the `Instant` it was
captured, on a rational wall-clock time line. -/
structure PlayerInformation where
  metadata : Metadata
  position : ℤ
  position_last_refresh : ℚ
  rate : Option ℚ
  status : Option PlaybackStatus
deriving DecidableEq

/-- `Instant::elapsed` at wall-clock `now`: monotone-clock difference, never
negative. -/
def elapsedSince (last now : ℚ) : ℚ := max (now - last) 0

/-- `PlayerInformation::calculate_total_elapsed` (`src/player.rs:343-356`).
The `assert!(self.position >= 0)` is modelled by returning `none` (a panic)
for a negative position.  While `Playing`, the code computes
`Duration::from_secs_f64(elapsed / rate)`, which panics when its argument is
sign-negative or not finite: with a non-negative elapsed that is exactly
`rate <= 0` (a negative rate makes the quotient sign-negative, `-0.0`
included; a zero rate makes it infinite or NaN), modelled as `none`.  The
remaining `from_secs_f64` panic, overflow of `Duration` at `2^64` seconds of
quotient, needs about 10^11 years of wall-clock elapsed and lies beyond the
modelled time range.  Otherwise elapsed wall-clock over the playback rate is
accumulated only while the status is `Playing`. -/
def calculate_total_elapsed (info : PlayerInformation) (now : ℚ) : Option ℚ :=
  if info.position < 0 then none
  else if info.status = some .Playing then
    if info.rate.getD 1 ≤ 0 then none
    else
      some ((info.position : ℚ) +
        elapsedSince info.position_last_refresh now / info.rate.getD 1)
  else some ((info.position : ℚ) + 0)

/-- `PlayerInformation::get_current_timetag` (`src/player.rs:359-388`):
the total elapsed position, clamped to the declared track length when one is
known and exceeded. -/
def get_current_timetag (info : PlayerInformation) (now : ℚ) : Option ℚ :=
  (calculate_total_elapsed info now).map fun calculated =>
    match info.metadata.trackLengthMicros with
    | some len => if calculated > len then len else calculated
    | none => calculated

/-- `PlayerInformationUpdate` (`src/player.rs:280-285`). -/
inductive PlayerInformationUpdate
  | Metadata (m : Waylrc.Metadata)
  | Rate (r : ℚ)
  | Status (s : PlaybackStatus)
  | Position (p : ℤ) (instant : ℚ)

/-- `PlayerInformation::apply_update` (`src/player.rs:323-339`). -/
def apply_update (info : PlayerInformation) : PlayerInformationUpdate → PlayerInformation
  | .Metadata m => { info with metadata := m }
  | .Rate r => { info with rate := some r }
  | .Status s => { info with status := some s }
  | .Position p i => { info with position := p, position_last_refresh := i }

/-- The state mutation performed on the registered player by
`handle_player_update` (`src/event_loop/player_update_handler.rs:46-78`),
before any lyric handling: a metadata update first resets the position
baseline to zero at `now`; the update is applied; a status update then
freezes the position by storing `position + elapsed/rate` (elapsed accrued
unconditionally, truncated to whole microseconds) with a fresh instant.  The
`assert!(info.position >= 0)` inside the status branch is modelled by
`none`, and so is the `Duration::from_secs_f64` panic of that branch for an
effective rate `<= 0` (sign-negative or non-finite quotient, as in
`calculate_total_elapsed`). -/
def handle_player_update_state (info0 : PlayerInformation)
    (u : PlayerInformationUpdate) (now : ℚ) : Option PlayerInformation :=
  let is_status_update := match u with | .Status _ => true | _ => false
  let is_metadata_update := match u with | .Metadata _ => true | _ => false
  let info1 :=
    if is_metadata_update then
      { info0 with position := 0, position_last_refresh := now }
    else info0
  let info2 := apply_update info1 u
  if is_status_update then
    if info2.position < 0 then none
    else if info2.rate.getD 1 ≤ 0 then none
    else
      let elapsed : ℚ := elapsedSince info2.position_last_refresh now / info2.rate.getD 1
      let current_timetag : ℚ := (info2.position : ℚ) + elapsed
      some { info2 with position := ⌊current_timetag⌋, position_last_refresh := now }
  else some info2

/-! ### Lyrics manager and scheduler (`src/event_loop/lyrics_manager.rs`,
`src/event_loop/utils.rs`) -/

/-- The cancellable display timer: `Either::Left(sleep d)` is an armed sleep,
`Either::Right(pending())` waits indefinitely. -/
inductive TimerState
  | pending
  | sleep (d : ℚ)
deriving DecidableEq

/-- `CurrentPlayerState` (`src/event_loop/current_player_state.rs`). -/
structure CurrentPlayerState where
  bus : String
  lrc : Doc
  next_lrc_timetag : TimeTag
deriving DecidableEq

/-- The sentinel used for an exhausted document:
`TimeTag::from(Duration::from_secs(u64::MAX))`, in microseconds. -/
def endMarker : TimeTag := 18446744073709551615000000

/-- `LyricsManager` (`src/event_loop/lyrics_manager.rs:31-37`). -/
structure LyricsManager where
  current_player : Option CurrentPlayerState
  current_player_timer : TimerState
  last_known_position : Option ℚ
  current_track_id : Option String
  last_loop_count : Option ℕ
deriving DecidableEq

/-- `LyricsManager::new` (`src/event_loop/lyrics_manager.rs:40-48`). -/
def LyricsManager.new : LyricsManager :=
  { current_player := none
    current_player_timer := .pending
    last_known_position := none
    current_track_id := none
    last_loop_count := none }

/-- An emitted render call: `none` is the explicit empty module, `some s` a
module with line text `s`. -/
abbrev Render := Option String

/-- `LyricsManager::clear_state` (`src/event_loop/lyrics_manager.rs:50-58`):
reset every field and emit an explicit empty render. -/
def clear_state (_lm : LyricsManager) : LyricsManager × List Render :=
  (LyricsManager.new, [none])

/-- `LyricsManager::detect_loop_restart`
(`src/event_loop/lyrics_manager.rs:60-112`).  Thresholds in microseconds:
15 s, 60 s, 30 s. -/
def detect_loop_restart (lm : LyricsManager) (current_pos : ℚ)
    (is_position_update is_metadata_update : Bool) : Bool :=
  if !(is_position_update || is_metadata_update) then false
  else
    let traditional_loop :=
      decide (current_pos < 15000000) &&
      (match lm.last_known_position with
       | some prev => decide (prev > 60000000)
       | none => false)
    let lyrics_ended_loop :=
      (match lm.current_player with
       | some p => decide (p.next_lrc_timetag = endMarker)
       | none => false) &&
      (match lm.last_known_position with
       | some prev => decide (prev > current_pos) && decide (prev - current_pos > 30000000)
       | none => false)
    traditional_loop || lyrics_ended_loop

/-- The wrap of `refresh_lyrics_display`
(`src/event_loop/lyrics_manager.rs:138-150`): a position beyond the declared
track length is treated as a loop restart and wrapped to zero. -/
def wrapTimetag (ct : ℚ) (trackLength : Option ℚ) : ℚ × Bool :=
  match trackLength with
  | some len => if ct > len then (0, true) else (ct, false)
  | none => (ct, false)

/-- `TimeTag::duration_from` (`src/lrc.rs:39-41`): `(self - from) / rate`. -/
def duration_from (self prev rate : ℚ) : ℚ := (self - prev) / rate

/-- `" "`-joined line text as printed by the render calls. -/
def joinSpace (l : List String) : String := String.intercalate " " l

/-- `LyricsManager::refresh_lyrics_display`
(`src/event_loop/lyrics_manager.rs:112-205`), with the values the code reads
from the player passed in: `ct0` is `info.get_current_timetag()`,
`trackLength` the extracted `mpris:length`, `rate` the playback rate.  A
track-id change resets the loop bookkeeping; the position is wrapped against
the track length; the document is queried at the (possibly wrapped) position;
with no next boundary the slot is kept with the `endMarker` sentinel and the
timer disarmed (plus an explicit empty render), otherwise the timer is armed
for the next boundary. -/
def refresh_lyrics_display (lm : LyricsManager) (bus : String) (lrc : Doc)
    (ct0 : ℚ) (trackLength : Option ℚ) (rate : ℚ) (track_id : Option String) :
    LyricsManager × List Render :=
  let lm :=
    if lm.current_track_id ≠ track_id then
      { lm with last_known_position := none, current_track_id := track_id }
    else lm
  let current_timetag := (wrapTimetag ct0 trackLength).1
  let res := lrcGet lrc current_timetag
  let out1 : Render := some (joinSpace res.1)
  match res.2 with
  | none =>
      ({ lm with
          current_player := some ⟨bus, lrc, endMarker⟩
          current_player_timer := .pending },
       [out1, some ""])
  | some next =>
      ({ lm with
          current_player := some ⟨bus, lrc, next⟩
          current_player_timer := .sleep (duration_from next current_timetag rate) },
       [out1])

/-- `handle_lyrics_timer` (`src/event_loop/utils.rs:177-230`): advance to the
stored boundary; with a further boundary re-arm, otherwise keep the slot with
the `endMarker` sentinel, disarm the timer and emit an explicit empty line. -/
def handle_lyrics_timer (lm : LyricsManager) (rate : ℚ) :
    LyricsManager × List Render :=
  match lm.current_player with
  | none => (lm, [])
  | some p =>
      let res := lrcGet p.lrc p.next_lrc_timetag
      let out1 : Render := some (joinSpace res.1)
      match res.2 with
      | none =>
          ({ lm with
              current_player := some { p with next_lrc_timetag := endMarker }
              current_player_timer := .pending },
           [out1, some ""])
      | some t =>
          ({ lm with
              current_player := some { p with next_lrc_timetag := t }
              current_player_timer := .sleep (duration_from t p.next_lrc_timetag rate) },
           [out1])

/-- `LyricsManager::update_position`
(`src/event_loop/lyrics_manager.rs:207-212`). -/
def update_position (lm : LyricsManager) (current_pos : ℚ)
    (is_position_update is_metadata_update : Bool) : LyricsManager :=
  if is_position_update || is_metadata_update then
    { lm with last_known_position := some current_pos }
  else lm

/-- The loop bookkeeping written by `handle_loop_check_timer`
(`src/event_loop/loop_check_handler.rs:143-162`). -/
def set_loop_bookkeeping (lm : LyricsManager) (count : ℕ) (pos : ℚ) :
    LyricsManager :=
  { lm with last_loop_count := some count, last_known_position := some pos }

/-- The lyrics-manager effects of `handle_player_update`
(`src/event_loop/player_update_handler.rs:86-177`) when the updated player
is the current player, remains active and its lyrics are available (`lrc` is
the reused or freshly reloaded document; `current_pos` is
`info.get_current_timetag()`): `current_player.take()` empties the slot
(line 88) without touching the timer; loop detection runs on the emptied
manager; the slot is written back only by `refresh_lyrics_display`, which is
called only when `needs_reload` (track change, position update or status
update) or a detected loop restart asks for it; position bookkeeping always
runs last. -/
def handle_current_player_update_state (lm : LyricsManager) (bus : String)
    (lrc : Doc)
    (track_changed is_position_update is_status_update is_metadata_update : Bool)
    (current_pos ct0 : ℚ) (trackLength : Option ℚ) (rate : ℚ)
    (track_id : Option String) : LyricsManager × List Render :=
  let lm1 : LyricsManager := { lm with current_player := none }
  let needs_reload := track_changed || is_position_update || is_status_update
  let is_loop_restart :=
    detect_loop_restart lm1 current_pos is_position_update is_metadata_update
  let step :=
    if needs_reload || is_loop_restart then
      refresh_lyrics_display lm1 bus lrc ct0 trackLength rate track_id
    else (lm1, [])
  (update_position step.1 current_pos is_position_update is_metadata_update,
    step.2)

/-- All keys of every version of a document lie below `b`.  Documents handed
to the scheduler are parsed from finite durations, so their keys are below
the `endMarker` sentinel. -/
def docKeysBelow (doc : Doc) (b : TimeTag) : Prop :=
  ∀ v ∈ doc, ∀ k ∈ versionKeys v, k < b

/-- The lyrics-manager states reachable by the event loop
(`src/event_loop/mod.rs`): the initial state, followed by any sequence of
clears, display refreshes (with a document whose keys are finite), timer
expirations, position-tracking updates and loop bookkeeping. -/
inductive Reachable : LyricsManager → Prop
  | init : Reachable LyricsManager.new
  | clear {lm} : Reachable lm → Reachable (clear_state lm).1
  | refresh {lm bus lrc ct0 trackLength rate track_id} : Reachable lm →
      docKeysBelow lrc endMarker →
      Reachable (refresh_lyrics_display lm bus lrc ct0 trackLength rate track_id).1
  | timer {lm rate} : Reachable lm → Reachable (handle_lyrics_timer lm rate).1
  | position {lm pos ipu imu} : Reachable lm →
      Reachable (update_position lm pos ipu imu)
  | bookkeeping {lm count pos} : Reachable lm →
      Reachable (set_loop_bookkeeping lm count pos)
  | currentPlayerUpdate
      {lm bus lrc track_changed ipu isu imu current_pos ct0 trackLength rate
        track_id} : Reachable lm → docKeysBelow lrc endMarker →
      Reachable (handle_current_player_update_state lm bus lrc track_changed
        ipu isu imu current_pos ct0 trackLength rate track_id).1

/-! ### Lyric resolution chain (`src/player.rs:154-269`) -/

/-- Outcomes of the two lyric sources reachable from a `file://` media path:
the sidecar `.lrc` file (does it exist, and how does it parse) and the
embedded tags. -/
structure PathInfo where
  lrcFileExists : Bool
  lrcParse : Except String Doc
  tagsParse : Except String Doc

/-- Outcome of the inline `xesam:asText` metadata field: whether the text is
a single (concatenated) line, its direct parse, and its best-effort
split-and-reparse used for concatenated text. -/
structure AsTextInfo where
  isSingleLine : Bool
  parseDirect : Except String Doc
  parseSplit : Except String Doc

/-- The environment `get_lyrics` consults: the inline field, and the media
URL (`none`: absent; `some none`: present but not a decodable `file://` path;
`some (some p)`: a local path with outcomes `p`). -/
structure LyricsEnv where
  asText : Option AsTextInfo
  urlPath : Option (Option PathInfo)

/-- The file branch of `get_lyrics` (`src/player.rs:196-207`): the sidecar
`.lrc` file if it exists, else the embedded tags — returning that source's
result, success or failure. -/
def localPath (p : PathInfo) : Except String Doc :=
  if p.lrcFileExists then p.lrcParse else p.tagsParse

/-- `PlayerInformation::get_lyrics` (`src/player.rs:154-221`).  A multi-line
inline field is parsed immediately; a single-line inline field is deferred
below the file sources; a `file://` URL resolves through `localPath`; with
nothing applicable the result is `none`. -/
def get_lyrics (env : LyricsEnv) : Option (Except String Doc) :=
  match env.asText with
  | some t =>
      if t.isSingleLine = false then some t.parseDirect
      else
        match env.urlPath with
        | some (some p) => some (localPath p)
        | _ => some t.parseSplit
  | none =>
      match env.urlPath with
      | some (some p) => some (localPath p)
      | _ => none

/-- `ExternalLrcProvider` as matched in `src/player.rs:236-265`. -/
inductive ExternalLrcProvider
  | NAVIDROME

/-- Outcome of the Navidrome provider: `none` when the fetch fails (the loop
moves on), `some r` when the fetch succeeded and the text parsed to `r`. -/
structure NavidromeEnv where
  fetchParse : Option (Except String Doc)

/-- The provider loop of `get_lyrics_with_external`
(`src/player.rs:235-266`): a provider without configuration is skipped; a
failed fetch moves to the next provider; a successful fetch ends the chain
with its parse result. -/
def try_external : List ExternalLrcProvider → Option NavidromeEnv →
    Option (Except String Doc)
  | [], _ => none
  | .NAVIDROME :: rest, cfg =>
      match cfg with
      | some c =>
          match c.fetchParse with
          | some r => some r
          | none => try_external rest cfg
      | none => try_external rest cfg

/-- `PlayerInformation::get_lyrics_with_external` (`src/player.rs:224-269`):
any local result — success or failure — is returned as is; the external
providers run only when the local chain produced nothing. -/
def get_lyrics_with_external (env : LyricsEnv)
    (providers : List ExternalLrcProvider) (cfg : Option NavidromeEnv) :
    Option (Except String Doc) :=
  match get_lyrics env with
  | some result => some result
  | none => try_external providers cfg

/-! ### Concrete instances used by the claims -/

/-- Empty metadata projection. -/
def emptyMetadata : Metadata :=
  { length := none, url := none, title := none, artist := none, trackid := none }

/-- A player whose last reported position is negative. -/
def c2Info : PlayerInformation :=
  { metadata := emptyMetadata
    position := -1
    position_last_refresh := 0
    rate := some 1
    status := some .Playing }

/-- A paused player at 10 s whose baseline instant is 0. -/
def c4Info : PlayerInformation :=
  { metadata := emptyMetadata
    position := 10000000
    position_last_refresh := 0
    rate := some 1
    status := some .Paused }

/-- A Playing player at 10 µs with a declared 180 s track length. -/
def c9Info : PlayerInformation :=
  { metadata := { emptyMetadata with length := some (.U64 180000000) }
    position := 10
    position_last_refresh := 0
    rate := some 1
    status := some .Playing }

/-- A non-exhausted lyrics-manager state whose last observed position is
170 s. -/
def c3State : LyricsManager :=
  { current_player := some ⟨"player", exampleDoc, 13340000⟩
    current_player_timer := .pending
    last_known_position := some 170000000
    current_track_id := none
    last_loop_count := none }

/-- A resolution environment whose sidecar `.lrc` file exists but fails to
parse, while the embedded tags would succeed. -/
def c5Env : LyricsEnv :=
  { asText := none
    urlPath := some (some
      { lrcFileExists := true
        lrcParse := .error "sidecar parse failure"
        tagsParse := .ok exampleDoc }) }

/-- A Navidrome configuration whose fetch and parse would succeed. -/
def c5Cfg : NavidromeEnv := { fetchParse := some (.ok exampleDoc) }

/-- The scheduler state after one display refresh of the worked document at
position 0: the slot holds the document with next boundary 6.47 s and the
timer is armed for it. -/
def c6ArmedState : LyricsManager :=
  (refresh_lyrics_display LyricsManager.new "p" exampleDoc 0 none 1 none).1

/-- The scheduler state after the armed state handles a Rate update for its
current player: no track change, not a position, status or metadata update
(`needs_reload` and `is_loop_restart` both false). -/
def c6AfterRateUpdate : LyricsManager :=
  (handle_current_player_update_state c6ArmedState "p" exampleDoc
    false false false false 3000000 3000000 none 1 none).1

/-! ## Helper lemmas -/

theorem appendLast_cons (a : TimeTag × String) (x : Version) (s : String)
    (h : x ≠ []) : appendLast (a :: x) s = a :: appendLast x s := by
  cases x with
  | nil => exact absurd rfl h
  | cons b y => rfl

theorem appendLast_concat (c : Version) (k : TimeTag) (v s : String) :
    appendLast (c ++ [(k, v)]) s = c ++ [(k, v ++ s)] := by
  induction c with
  | nil => rfl
  | cons a c ih =>
      rw [List.cons_append, appendLast_cons a (c ++ [(k, v)]) s (by simp),
        ih, List.cons_append]

/-! ## C7 -/

/-- C7 is corrected: when parsing LRC input, a line carrying no timestamp
with no prior line in the current version synthesizes a zero-timestamp entry;
with a prior line present, the line's text is appended directly to that
line's text with no separator (the spec's claim of space-joining fails):
parsing a timestamped line followed by a plain continuation line yields the
directly concatenated text. -/
theorem c7_counterexample :
    lrcFromLines [([1000000], "Hello"), ([], "World")] =
      [[(1000000, "HelloWorld")]] ∧
    "HelloWorld" ≠ "Hello World" := by
  exact ⟨by decide, by decide⟩

/-- C7 amended: a no-timestamp line with an empty current version synthesizes
a zero-timestamp entry holding the line's text; with a prior line present the
text is appended to the last entry's text directly (concatenated, no
space). -/
theorem c7_amended (d : List Version) (c : Version) (k : TimeTag)
    (v text : String) :
    lrcStep (d, []) ([], text) = (d, [(0, text)]) ∧
    (c.getLast? ≠ none → lrcStep (d, c) ([], text) = (d, appendLast c text)) ∧
    appendLast (c ++ [(k, v)]) text = c ++ [(k, v ++ text)] := by
  refine ⟨rfl, ?_, appendLast_concat c k v text⟩
  intro h
  cases hl : c.getLast? with
  | none => exact absurd hl h
  | some kv => simp [lrcStep, hl]

/-- Witness for the amended C7: appending the continuation line "World" to a
version ending in "Hello" concatenates the texts directly. -/
theorem c7_amended_witness :
    lrcStep ([], [((1000000 : ℚ), "Hello")]) ([], "World") =
      ([], appendLast [((1000000 : ℚ), "Hello")] "World") :=
  (c7_amended [] [(1000000, "Hello")] 1 "x" "World").2.1 (by decide)

/-! ## C8 -/

/-- C8 is confirmed: a line with exactly one timestamp strictly below the
current version's latest key starts a new version before inserting; one with
a timestamp not below the latest key (or an empty current version) inserts in
place; a line listing several timestamps inserts the same text at every
listed timestamp into the current version without starting a new one; and
the two-line document with timestamps 12 s, then 21.1 s and 45.1 s on one
line, parses to a single version with the three increasing keys. -/
theorem c8_confirmed (d : List Version) (c : Version) (t : TimeTag)
    (text : String) (k : TimeTag) (v : String) :
    (c.getLast? = some (k, v) → t < k →
      lrcStep (d, c) ([t], text) = (d ++ [c], [(t, text)])) ∧
    (c.getLast? = some (k, v) → k ≤ t →
      lrcStep (d, c) ([t], text) = (d, insertVersion c t text)) ∧
    (∀ t2 ts, lrcStep (d, c) (t :: t2 :: ts, text) =
      (d, (t :: t2 :: ts).foldl (fun cc tt => insertVersion cc tt text) c)) ∧
    lrcFromLines [([12000000], "A"), ([21100000, 45100000], "B")] =
      [[(12000000, "A"), (21100000, "B"), (45100000, "B")]] := by
  refine ⟨?_, ?_, fun t2 ts => rfl, by decide⟩
  · intro h1 h2
    simp only [lrcStep, h1]
    rw [if_pos h2]
  · intro h1 h2
    simp only [lrcStep, h1]
    rw [if_neg (not_lt.mpr h2)]

/-- Witness for C8: a single timestamp 12 s below the latest key 21.1 s
starts a new version; the worked example parses to one version with three
keys. -/
theorem c8_confirmed_witness :
    lrcStep ([], [((21100000 : ℚ), "A")]) ([12000000], "B") =
      ([] ++ [[((21100000 : ℚ), "A")]], [(12000000, "B")]) ∧
    lrcFromLines [([12000000], "A"), ([21100000, 45100000], "B")] =
      [[(12000000, "A"), (21100000, "B"), (45100000, "B")]] :=
  ⟨(c8_confirmed [] [(21100000, "A")] 12000000 "B" 21100000 "A").1 rfl
      (by decide),
    (c8_confirmed [] [] 0 "" 0 "").2.2.2⟩

/-! ## C2 -/

/-- C2 is corrected: `calculate_total_elapsed` is not total on a negative
last-reported position — the assertion fires (modelled as `none`, a panic)
instead of clamping the value to zero. -/
theorem c2_counterexample :
    calculate_total_elapsed c2Info 0 = none ∧
    c2Info.position < 0 ∧
    (none : Option ℚ) ≠ some 0 := by
  exact ⟨rfl, by decide, by decide⟩

/-- C2 amended: `calculate_total_elapsed` (and hence `get_current_timetag`)
panics exactly when the last reported position is negative — the assertion —
or when the player is Playing with an effective rate at most zero — the
`Duration::from_secs_f64` panic on a sign-negative or non-finite quotient.
Neither anomaly is clamped to zero.  Away from both, the computation is
total: while Playing it accrues elapsed wall-clock over the rate, otherwise
it adds nothing. -/
theorem c2_amended (info : PlayerInformation) (now : ℚ) :
    (calculate_total_elapsed info now = none ↔
      (info.position < 0 ∨
        (info.status = some .Playing ∧ info.rate.getD 1 ≤ 0))) ∧
    (info.position < 0 → get_current_timetag info now = none) ∧
    (0 ≤ info.position → info.status = some .Playing →
      0 < info.rate.getD 1 →
      calculate_total_elapsed info now =
        some ((info.position : ℚ) +
          elapsedSince info.position_last_refresh now / info.rate.getD 1)) ∧
    (0 ≤ info.position → ¬info.status = some .Playing →
      calculate_total_elapsed info now = some ((info.position : ℚ) + 0)) := by
  refine ⟨?_, ?_, ?_, ?_⟩
  · unfold calculate_total_elapsed
    split_ifs with h1 h2 h3 <;> simp_all
  · intro h
    simp [get_current_timetag, calculate_total_elapsed, h]
  · intro h1 h2 h3
    rw [calculate_total_elapsed, if_neg (not_lt.mpr h1), if_pos h2,
      if_neg (not_le.mpr h3)]
  · intro h1 h2
    rw [calculate_total_elapsed, if_neg (not_lt.mpr h1), if_neg h2]

/-- Witness for the amended C2: a Playing player at position 10 µs with rate
1 is evaluated without a panic. -/
theorem c2_amended_witness :
    calculate_total_elapsed c9Info 7 =
      some ((c9Info.position : ℚ) +
        elapsedSince c9Info.position_last_refresh 7 / c9Info.rate.getD 1) :=
  (c2_amended c9Info 7).2.2.1 (by decide) rfl (by decide)

/-! ## C10 -/

/-- C10 is confirmed: handling a metadata update for a registered player
stores metadata `m`, resets the position to 0 and the capture instant to the
moment of handling — unconditionally, so also when the track-identity fields
of `m` equal the old ones — and leaves rate and status unchanged. -/
theorem c10_confirmed (info : PlayerInformation) (m : Metadata) (now : ℚ) :
    handle_player_update_state info (.Metadata m) now =
      some
        { metadata := m
          position := 0
          position_last_refresh := now
          rate := info.rate
          status := info.status } :=
  rfl

/-! ## C4 -/

/-- C4 exposes a code bug: a Paused player at 10 s whose baseline instant is
0 receives a Status(Playing) update at wall-clock 5 s.  The handler's freeze
stores position 15 s — the 5 s spent paused are accrued into the baseline —
although the extrapolated position at that instant is the frozen 10 s. -/
theorem c4_code_bug :
    (handle_player_update_state c4Info (.Status .Playing) 5000000).map
        PlayerInformation.position = some 15000000 ∧
    get_current_timetag c4Info 5000000 = some 10000000 ∧
    (15000000 : ℤ) ≠ 10000000 := by
  refine ⟨?_, ?_, by decide⟩
  · norm_num [handle_player_update_state, apply_update, c4Info, elapsedSince]
  · norm_num [get_current_timetag, calculate_total_elapsed, c4Info,
      emptyMetadata, Metadata.trackLengthMicros, elapsedSince]
    decide

/-! ## C5 -/

/-- C5 is corrected: the resolution chain does not fall through on failure —
when the sidecar `.lrc` file exists but fails to parse, that failure is the
overall result, although the embedded tags would succeed and the configured
external provider would succeed. -/
theorem c5_counterexample :
    get_lyrics_with_external c5Env [.NAVIDROME] (some c5Cfg) =
      some (.error "sidecar parse failure") ∧
    c5Env.urlPath.map (Option.map PathInfo.tagsParse) =
      some (some (.ok exampleDoc)) ∧
    try_external [.NAVIDROME] (some c5Cfg) = some (.ok exampleDoc) := by
  exact ⟨rfl, rfl, rfl⟩

/-- C5 amended: lyric resolution tries, in order, a multi-line inline
metadata field; else, when the URL decodes to a local path, the sidecar
`.lrc` file if it exists and otherwise the embedded tags; else a single-line
inline field (deferred below the file sources).  The first applicable
source's result — success or failure — is returned as is; external providers
are consulted, in configured order, only when no local source applied: a
provider whose fetch succeeds ends the chain with its parse result, a failed
fetch moves on, and exhaustion yields no lyrics. -/
theorem c5_amended (env : LyricsEnv) (t : AsTextInfo) (p : PathInfo)
    (ps : List ExternalLrcProvider) (cfg : Option NavidromeEnv)
    (c : NavidromeEnv) (r : Except String Doc) :
    (env.asText = some t → t.isSingleLine = false →
      get_lyrics env = some t.parseDirect) ∧
    (env.asText = some t → t.isSingleLine = true →
      env.urlPath = some (some p) → get_lyrics env = some (localPath p)) ∧
    (env.asText = some t → t.isSingleLine = true →
      (∀ q, env.urlPath ≠ some (some q)) →
      get_lyrics env = some t.parseSplit) ∧
    (env.asText = none → env.urlPath = some (some p) →
      get_lyrics env = some (localPath p)) ∧
    (env.asText = none → (∀ q, env.urlPath ≠ some (some q)) →
      get_lyrics env = none) ∧
    (localPath p = if p.lrcFileExists then p.lrcParse else p.tagsParse) ∧
    (get_lyrics env = some r →
      get_lyrics_with_external env ps cfg = some r) ∧
    (get_lyrics env = none →
      get_lyrics_with_external env ps cfg = try_external ps cfg) ∧
    (c.fetchParse = some r →
      try_external (.NAVIDROME :: ps) (some c) = some r) ∧
    (c.fetchParse = none →
      try_external (.NAVIDROME :: ps) (some c) = try_external ps (some c)) ∧
    try_external [] cfg = none := by
  refine ⟨?_, ?_, ?_, ?_, ?_, rfl, ?_, ?_, ?_, ?_, rfl⟩
  · intro h1 h2
    simp [get_lyrics, h1, h2]
  · intro h1 h2 h3
    simp [get_lyrics, h1, h2, h3]
  · intro h1 h2 h3
    cases hu : env.urlPath with
    | none => simp [get_lyrics, h1, h2, hu]
    | some o =>
        cases o with
        | none => simp [get_lyrics, h1, h2, hu]
        | some q => exact absurd hu (h3 q)
  · intro h1 h2
    simp [get_lyrics, h1, h2]
  · intro h1 h2
    cases hu : env.urlPath with
    | none => simp [get_lyrics, h1, hu]
    | some o =>
        cases o with
        | none => simp [get_lyrics, h1, hu]
        | some q => exact absurd hu (h2 q)
  · intro h
    simp [get_lyrics_with_external, h]
  · intro h
    simp [get_lyrics_with_external, h]
  · intro h
    simp [try_external, h]
  · intro h
    simp [try_external, h]

/-- Witness for the amended C5: the failing sidecar result short-circuits
the external chain. -/
theorem c5_amended_witness :
    get_lyrics_with_external c5Env [] none =
      some (Except.error "sidecar parse failure") :=
  (c5_amended c5Env ⟨true, .ok [], .ok []⟩ ⟨true, .ok [], .ok []⟩ [] none
      ⟨none⟩ (.error "sidecar parse failure")).2.2.2.2.2.2.1 (by rfl)

/-! ## C3 -/

/-- Exact characterization of `detect_loop_restart`: a position or metadata
update is required, and then either the traditional check (current below
15 s and last-known above 60 s, with no exhaustion requirement) or the
lyrics-ended check (slot at the sentinel and a backward jump of more than
30 s) fires. -/
theorem detect_loop_restart_iff (lm : LyricsManager) (cur : ℚ)
    (ipu imu : Bool) :
    detect_loop_restart lm cur ipu imu = true ↔
      ((ipu = true ∨ imu = true) ∧
        ((cur < 15000000 ∧
            ∃ prev, lm.last_known_position = some prev ∧ 60000000 < prev) ∨
         ((∃ p, lm.current_player = some p ∧ p.next_lrc_timetag = endMarker) ∧
          ∃ prev, lm.last_known_position = some prev ∧
            cur < prev ∧ 30000000 < prev - cur))) := by
  unfold detect_loop_restart
  cases ipu <;> cases imu <;>
    cases hp : lm.last_known_position <;>
      cases hc : lm.current_player <;>
        simp [hp, hc, and_assoc, and_comm, and_left_comm, or_comm]

/-- C3 is corrected: with last-known position 170 s, a position update
reporting 3 s is flagged as a loop restart although the slot is not
exhausted and 3 s does not exceed the 180 s track length — the claimed
"exactly (a) or (b)" rule does not cover this firing of the traditional
check. -/
theorem c3_counterexample :
    detect_loop_restart c3State 3000000 true false = true ∧
    (∀ p, c3State.current_player = some p →
      p.next_lrc_timetag ≠ endMarker) ∧
    (3000000 : ℚ) ≤ 180000000 := by
  refine ⟨rfl, ?_, by decide⟩
  exact fun p hp => (Option.some.inj hp) ▸ (by decide)

/-- C3 amended: on a position or metadata update a restart is declared
exactly when either the current position is below 15 s with the last-known
position above 60 s (no exhaustion required), or the slot is exhausted and
the position moved backward by more than 30 s; independently,
`refresh_lyrics_display` wraps a position exceeding the declared track
length to zero and treats it as a restart.  The 170 s → 3 s update is
flagged; a 20 s backward jump with a non-exhausted slot never is. -/
theorem c3_amended (lm : LyricsManager) (cur : ℚ) (ipu imu : Bool)
    (len : ℚ) :
    (detect_loop_restart lm cur ipu imu = true ↔
      ((ipu = true ∨ imu = true) ∧
        ((cur < 15000000 ∧
            ∃ prev, lm.last_known_position = some prev ∧ 60000000 < prev) ∨
         ((∃ p, lm.current_player = some p ∧ p.next_lrc_timetag = endMarker) ∧
          ∃ prev, lm.last_known_position = some prev ∧
            cur < prev ∧ 30000000 < prev - cur)))) ∧
    detect_loop_restart c3State 3000000 true false = true ∧
    ((∀ p, lm.current_player = some p → p.next_lrc_timetag ≠ endMarker) →
      lm.last_known_position = some (cur + 20000000) →
      detect_loop_restart lm cur ipu imu = false) ∧
    (len < cur → wrapTimetag cur (some len) = (0, true)) ∧
    (cur ≤ len → wrapTimetag cur (some len) = (cur, false)) := by
  refine ⟨detect_loop_restart_iff lm cur ipu imu, rfl, ?_, ?_, ?_⟩
  · intro hex hpos
    cases hdet : detect_loop_restart lm cur ipu imu with
    | false => rfl
    | true =>
        obtain ⟨-, hcase⟩ := (detect_loop_restart_iff lm cur ipu imu).mp hdet
        rcases hcase with ⟨hcur, prev, hprev, hgt⟩ | ⟨⟨p, hp, hmark⟩, -⟩
        · rw [hpos] at hprev
          obtain rfl : cur + 20000000 = prev := Option.some.inj hprev
          linarith
        · exact absurd hmark (hex p hp)
  · intro h
    simp [wrapTimetag, h]
  · intro h
    simp [wrapTimetag, not_lt.mpr h]

/-- Witness for the amended C3: the 170 s → 3 s example is flagged, and a
200 s position on a 180 s track is wrapped to zero. -/
theorem c3_amended_witness :
    detect_loop_restart c3State 3000000 true false = true ∧
    wrapTimetag 200000000 (some 180000000) = (0, true) :=
  ⟨(c3_amended c3State 3000000 true false 0).2.1,
   (c3_amended LyricsManager.new 200000000 true true 180000000).2.2.2.1
     (by decide)⟩

/-! ## C1 -/

/-- On a sorted version the code's query agrees with its filter-based
reading: the text at the least key `≥ t` and the key after it. -/
theorem versionAt_eq_spec (v : Version) (t : TimeTag) (h : versionSorted v) :
    versionAt v t = versionAtSpec v t := by
  induction v with
  | nil => rfl
  | cons kv rest ih =>
      obtain ⟨k, s⟩ := kv
      rw [versionSorted, versionKeys] at h
      simp only [List.map_cons, List.pairwise_cons, List.mem_map] at h
      obtain ⟨hall, hrest⟩ := h
      by_cases ht : t ≤ k
      · have hfil : rest.filter (fun p => t ≤ p.1) = rest :=
          List.filter_eq_self.mpr fun p hp =>
            decide_eq_true (le_of_lt (lt_of_le_of_lt ht
              (hall p.1 ⟨p, hp, rfl⟩)))
        simp only [versionAt, versionAtSpec, List.filter_cons,
          decide_eq_true ht, if_pos ht]
        rw [hfil]
        simp
      · have hd : (decide (t ≤ k)) = false := decide_eq_false ht
        simp only [versionAt, versionAtSpec, List.filter_cons, hd,
          if_neg ht, Bool.false_eq_true, if_false]
        exact ih hrest

/-- On a document of sorted versions `Lrc::get` agrees with the filter-based
reading throughout. -/
theorem lrcGet_eq_spec (doc : Doc) (t : TimeTag) (h : docSorted doc) :
    lrcGet doc t = lrcGetSpec doc t := by
  unfold lrcGet lrcGetSpec
  refine List.foldl_ext _ _ _ fun acc v hv => ?_
  rw [lrcGetStep, lrcGetSpecStep, versionAt_eq_spec v t (h v hv)]

/-- C1 is corrected: on the document with lines at 0 s, 6.47 s and 13.34 s,
`Lrc::get(5 s)` returns the 6.47 s line with 13.34 s as next boundary — not
the 0 s line with 6.47 s as boundary as claimed: the code reads the least
key `≥ t`, not the greatest key `≤ t`. -/
theorem c1_counterexample :
    lrcGet exampleDoc 5000000 = (["B"], some 13340000) ∧
    lrcGet exampleDoc 5000000 ≠ (["A"], some 6470000) := by
  exact ⟨by decide, by decide⟩

/-- C1 amended: per version, `Lrc::get(t)` returns the text at the least key
`≥ t` (a version with no such key contributes nothing), with the earliest
key after it across versions as the next boundary; on the worked document,
`get(5 s)` yields the 6.47 s line with boundary 13.34 s, and `get(13.34 s)`
yields the 13.34 s line with no boundary. -/
theorem c1_amended (doc : Doc) (t : TimeTag) (h : docSorted doc) :
    lrcGet doc t = lrcGetSpec doc t ∧
    lrcGet exampleDoc 5000000 = (["B"], some 13340000) ∧
    lrcGet exampleDoc 13340000 = (["C"], none) :=
  ⟨lrcGet_eq_spec doc t h, by decide, by decide⟩

/-- Witness for the amended C1, at the worked document and query 5 s. -/
theorem c1_amended_witness :
    lrcGet exampleDoc 5000000 = lrcGetSpec exampleDoc 5000000 ∧
    lrcGet exampleDoc 5000000 = (["B"], some 13340000) ∧
    lrcGet exampleDoc 13340000 = (["C"], none) :=
  c1_amended exampleDoc 5000000 (by unfold docSorted versionSorted; decide)

/-! ## C9 -/

/-- C9 is confirmed: for a Playing player with a fixed positive rate, fixed
non-negative reported position and fixed baseline, `get_current_timetag` is
defined and non-decreasing as wall-clock time advances, and its value never
exceeds the declared track length when one is known. -/
theorem c9_confirmed (info : PlayerInformation) (r now now2 : ℚ)
    (hst : info.status = some .Playing) (hr : info.rate = some r)
    (hrpos : 0 < r) (hpos : 0 ≤ info.position) (hnow : now ≤ now2) :
    ∃ a b, get_current_timetag info now = some a ∧
      get_current_timetag info now2 = some b ∧ a ≤ b ∧
      ∀ len, info.metadata.trackLengthMicros = some len → b ≤ len := by
  have hcalc : ∀ n, calculate_total_elapsed info n =
      some ((info.position : ℚ) +
        elapsedSince info.position_last_refresh n / r) := by
    intro n
    have hgd : info.rate.getD 1 = r := by rw [hr]; rfl
    rw [calculate_total_elapsed, if_neg (not_lt.mpr hpos), if_pos hst, hgd,
      if_neg (not_le.mpr hrpos)]
  have hmono : (info.position : ℚ) +
      elapsedSince info.position_last_refresh now / r ≤
      (info.position : ℚ) +
      elapsedSince info.position_last_refresh now2 / r := by
    have he : elapsedSince info.position_last_refresh now ≤
        elapsedSince info.position_last_refresh now2 := by
      unfold elapsedSince
      exact max_le_max (by linarith) le_rfl
    have := (div_le_div_iff_of_pos_right hrpos).mpr he
    linarith
  cases hlen : info.metadata.trackLengthMicros with
  | none =>
      simp only [get_current_timetag, hcalc, hlen, Option.map_some']
      exact ⟨_, _, rfl, rfl, hmono, fun len h => by simp at h⟩
  | some len =>
      simp only [get_current_timetag, hcalc, hlen, Option.map_some']
      refine ⟨_, _, rfl, rfl, ?_, ?_⟩
      · split_ifs <;> linarith
      · intro len2 hlen2
        obtain rfl := Option.some.inj hlen2
        split_ifs with h
        · exact le_rfl
        · exact not_lt.mp h

/-- Witness for C9: a Playing player at 10 µs with rate 1 and a declared
180 s length, observed at wall-clock 0 and 1 s. -/
theorem c9_confirmed_witness :
    ∃ a b, get_current_timetag c9Info 0 = some a ∧
      get_current_timetag c9Info 1000000 = some b ∧ a ≤ b ∧
      ∀ len, c9Info.metadata.trackLengthMicros = some len → b ≤ len :=
  c9_confirmed c9Info 1 0 1000000 rfl rfl (by decide) (by decide) (by decide)

/-! ## C6 -/

/-- C6 exposes a code bug: the armed-iff-boundary invariant fails in a
reachable state.  From the armed state (slot holding the worked document
with next boundary 6.47 s, timer sleeping), handling a Rate update for the
current player — no track change, not a position, status or metadata update
— takes the `CurrentPlayerState` out of the slot (`current_player.take()`,
`src/event_loop/player_update_handler.rs:88`) and, with `needs_reload` and
`is_loop_restart` both false, never writes it back: the slot is empty while
the timer is still armed, so no next lyric boundary is known yet a finite
sleep is pending. -/
theorem c6_code_bug :
    Reachable c6AfterRateUpdate ∧
    c6ArmedState.current_player ≠ none ∧
    c6ArmedState.current_player_timer ≠ .pending ∧
    c6AfterRateUpdate.current_player = none ∧
    c6AfterRateUpdate.current_player_timer ≠ .pending := by
  refine ⟨?_, ?_, ?_, rfl, ?_⟩
  · exact Reachable.currentPlayerUpdate
      (Reachable.refresh Reachable.init (by unfold docKeysBelow; decide))
      (by unfold docKeysBelow; decide)
  · intro h
    exact Option.noConfusion h
  · intro h
    exact TimerState.noConfusion h
  · intro h
    exact TimerState.noConfusion h

end Waylrc
